import Mathlib

/-!
Verification development for the transportation-problem model builder and
result interpreter in `src/main.py` (OR-tools linear solver front end).

The Python program is embedded shallowly:

* `ProblemData` mirrors the JSON input after loading: the source and
  customer lists, the production and demand dictionaries (modelled as
  total functions — the code indexes them only at list members), and the
  transportation-cost and fixed-transportation dictionaries, which we keep
  as association lists so that a failing key lookup (a Python `KeyError`)
  is observable.
* The model-builder section of `solve_problem_using_ortools_linear_solver`
  becomes pure list-producing functions: one `LinCon` record per emitted
  solver constraint, with the same name strings, left-hand sides,
  relations and right-hand sides, produced in the same order.
* The interpreter section becomes pure functions from a `SolveOutput`
  (the values the external solver hands back) to report rows and
  conclusion strings.  Python `round(x, 2)` is modelled by round-half-to-
  even on ℚ; Python string slicing by explicit `List Char` take/drop with
  the same clamping behaviour.
-/

/-- A route is a (source, customer) pair of location codes. -/
abbrev Route := String × String

/-- The input data of one problem instance, as loaded from the JSON file.
`pSourceProduction` and `pCustomerDemand` are dictionaries indexed only at
members of the respective lists; we model them as total functions.  The
cost and fixed-transportation dictionaries are built from lists of
`(index, value)` items and are kept as association lists, with lookups
modelled explicitly (a missing key is a Python `KeyError`). -/
structure ProblemData where
  sSources : List String
  sCustomers : List String
  pSourceProduction : String → ℚ
  pCustomerDemand : String → ℚ
  pTransportationCosts : List (Route × ℚ)
  pFixedTransportation : List (Route × ℚ)

/-- Lookup in a Python dict built from an item list by comprehension:
later items overwrite earlier ones, so the last matching key wins.
`none` models a `KeyError`. -/
def dictLookup (l : List (Route × ℚ)) (k : Route) : Option ℚ :=
  (l.reverse.find? (fun kv => decide (kv.1 = k))).map (·.2)

/-- `sSources_Customers`: the list of available (source, customer)
combinations — the keys of the transportation-cost item list, in order. -/
def sSources_Customers (d : ProblemData) : List Route :=
  d.pTransportationCosts.map (·.1)

/-- The name given to the decision variable of route (s, c):
`"quantity_in_tons_" + str(s) + "_" + str(c)`. -/
def varName (s c : String) : String :=
  "quantity_in_tons_" ++ s ++ "_" ++ c

/-- The key set of the `vQuantityExchanged` dictionary: the routes for
which a decision variable is created, in creation order.  The Python
comprehension runs over `sSources × sCustomers` and keeps the pairs that
occur in `sSources_Customers`. -/
def vQuantityKeys (d : ProblemData) : List Route :=
  d.sSources.flatMap fun s =>
    (d.sCustomers.filter fun c => decide ((s, c) ∈ sSources_Customers d)).map
      fun c => (s, c)

/-- The relation of a linear constraint: `<=`, `>=` or `==`. -/
inductive ConRel where
  | le : ConRel
  | ge : ConRel
  | eq : ConRel
deriving DecidableEq, Repr

/-- One solver constraint as the model builder emits it: its name string,
its left-hand side (the route variables it sums, each with coefficient 1),
its relation and its right-hand-side bound. -/
structure LinCon where
  name : String
  lhs : List Route
  rel : ConRel
  rhs : ℚ
deriving DecidableEq, Repr

/-- The production-limit (capacity) constraint of source `s`:
sum of outgoing route quantities `<=` production, named
`"c01_production_%s" % s`. -/
def mkCapCon (d : ProblemData) (s : String) : LinCon :=
  { name := "c01_production_" ++ s
    lhs := (d.sCustomers.filter fun c =>
      decide ((s, c) ∈ sSources_Customers d)).map fun c => (s, c)
    rel := ConRel.le
    rhs := d.pSourceProduction s }

/-- The demand constraint of customer `c`: sum of incoming route
quantities `>=` demand, named `"c02_demand_%s" % c`. -/
def mkDemCon (d : ProblemData) (c : String) : LinCon :=
  { name := "c02_demand_" ++ c
    lhs := (d.sSources.filter fun s =>
      decide ((s, c) ∈ sSources_Customers d)).map fun s => (s, c)
    rel := ConRel.ge
    rhs := d.pCustomerDemand c }

/-- The fixed-transportation equality constraint of route `p` with fixed
quantity `v`, named `"c03_fixed_%s_%s" % (s, c)`. -/
def mkFixedCon (p : Route) (v : ℚ) : LinCon :=
  { name := "c03_fixed_" ++ p.1 ++ "_" ++ p.2
    lhs := [p]
    rel := ConRel.eq
    rhs := v }

/-- One capacity constraint is emitted per source, in list order,
whether or not the source has any route. -/
def capacityCons (d : ProblemData) : List LinCon :=
  d.sSources.map (mkCapCon d)

/-- One demand constraint is emitted per customer, in list order. -/
def demandCons (d : ProblemData) : List LinCon :=
  d.sCustomers.map (mkDemCon d)

/-- The fixed-transportation loop body over an explicit list of
(source, customer) pairs.  For each pair that is an available route the
code evaluates `pFixedTransportation[s, c]`: a missing key raises a
`KeyError` (modelled as `Except.error`), a zero value is falsy and emits
nothing, and a non-zero value emits the equality constraint. -/
def buildFixedFor (d : ProblemData) : List Route → Except String (List LinCon)
  | [] => Except.ok []
  | p :: rest =>
    if p ∈ sSources_Customers d then
      match dictLookup d.pFixedTransportation p with
      | none => Except.error "KeyError"
      | some v =>
        match buildFixedFor d rest with
        | Except.error e => Except.error e
        | Except.ok l => Except.ok (if v = 0 then l else mkFixedCon p v :: l)
    else buildFixedFor d rest

/-- The pair order of the two nested loops `for s in sSources: for c in
sCustomers:`. -/
def allPairs (d : ProblemData) : List Route :=
  d.sSources.flatMap fun s => d.sCustomers.map fun c => (s, c)

/-- The fixed-transportation constraints the model builder emits, or the
`KeyError` the loop raises. -/
def buildFixedConstraints (d : ProblemData) : Except String (List LinCon) :=
  buildFixedFor d (allPairs d)

/-- All constraints the model builder hands to the solver, in emission
order: capacity constraints, then demand constraints, then fixed-flow
constraints — or the `KeyError` raised while building the latter. -/
def modelConstraints (d : ProblemData) : Except String (List LinCon) :=
  match buildFixedConstraints d with
  | Except.error e => Except.error e
  | Except.ok fl => Except.ok (capacityCons d ++ demandCons d ++ fl)

/-- Rounding to the nearest integer, ties to even: the rule Python
`round` applies. -/
def roundHalfEven (x : ℚ) : ℤ :=
  let f := Int.floor x
  let r := x - f
  if r < 1 / 2 then f
  else if 1 / 2 < r then f + 1
  else if f % 2 = 0 then f else f + 1

/-- Python `round(x, 2)`: round to two decimal places. -/
def round2 (x : ℚ) : ℚ :=
  (roundHalfEven (100 * x) : ℚ) / 100

/-- Python slice `name[-n:]` on a string: the last `n` characters, the
whole string when it is shorter than `n`. -/
def pyLastN (s : String) (n : Nat) : String :=
  String.mk (s.data.drop (s.data.length - n))

/-- Python slice `name[-a:-b]` on a string (`b < a`): truncated
subtraction reproduces the clamping of negative indices to the start. -/
def pySliceNeg (s : String) (a b : Nat) : String :=
  String.mk ((s.data.drop (s.data.length - a)).take
    ((s.data.length - b) - (s.data.length - a)))

/-- The source decoded from a variable name: `variable_name[-7:-4]`. -/
def decodeVarSource (s : String) : String := pySliceNeg s 7 4

/-- The customer decoded from a variable name: `variable_name[-3:]`. -/
def decodeVarCustomer (s : String) : String := pyLastN s 3

/-- The constraint number decoded from a constraint name:
`int(str(constraint_name)[2:3])`.  `none` covers the inputs on which
Python `int` would raise (an empty slice or a non-digit character);
every name the model builder produces decodes to a digit. -/
def constraintNumber (s : String) : Option Nat :=
  match (s.data.drop 2).take 1 with
  | [ch] => if ch.isDigit then some (ch.toNat - 48) else none
  | _ => none

/-- The conclusion line printed for a binding constraint whose location
is a known source (the "available in" wording), as a function of the
already-rounded shadow price. -/
def availableLine (lc : String) (sp : ℚ) : String :=
  if sp < 0 then
    "The total transportation cost would be reduced by " ++ toString |sp| ++
      " euros for each additional ton available in " ++ lc
  else if sp > 0 then
    "The total transportation cost would be increased in " ++ toString sp ++
      " euros for each additional ton available in " ++ lc
  else
    "The total transportation cost would remain equal for each additional ton available in "
      ++ lc

/-- The conclusion line printed for a binding constraint whose location
is not a known source (the "supply at" wording), as a function of the
already-rounded shadow price. -/
def supplyAtLine (lc : String) (sp : ℚ) : String :=
  if sp < 0 then
    "The total transportation cost would be reduced by " ++ toString |sp| ++
      " euros for each additional ton supply at " ++ lc
  else if sp > 0 then
    "The total transportation cost would be increased in " ++ toString sp ++
      " euros for each additional ton supply at " ++ lc
  else
    "The total transportation cost would remain equal for each additional ton supply at "
      ++ lc

/-- `print_conclusions_constraints_sensibility_analysis`: decodes the
constraint number from `name[2:3]` and the location from `name[-3:]`,
rounds the shadow price to 2 decimals, and prints one line when the
number is at most 2 — the "available" wording when the location is a
known source, the "supply at" wording otherwise.  `none` means nothing
is printed. -/
def printConclusionsConstraints (constraint_name : String) (shadow_price : ℚ)
    (sources : List String) : Option String :=
  match constraintNumber constraint_name with
  | none => none
  | some n =>
    let lc := pyLastN constraint_name 3
    let sp := round2 shadow_price
    if n ≤ 2 ∧ lc ∈ sources then some (availableLine lc sp)
    else if n ≤ 2 then some (supplyAtLine lc sp)
    else none

/-- `print_conclusions_variables_sensibility_analysis`: decodes the
source from `variable_name[-7:-4]` and the customer from
`variable_name[-3:]`, rounds the reduced cost to 2 decimals, and prints
one line whose wording follows the sign of the rounded value. -/
def printConclusionsVariables (variable_name : String) (reduced_cost : ℚ) :
    String :=
  let source := decodeVarSource variable_name
  let customer := decodeVarCustomer variable_name
  let rc := round2 reduced_cost
  if rc < 0 then
    "The total transportation cost would be reduced by " ++ toString |rc| ++
      " euros for each ton supply from " ++ source ++ " to " ++ customer
  else if rc > 0 then
    "The total cost would be increased in " ++ toString rc ++
      " euros for each ton supply from " ++ source ++ " to " ++ customer
  else
    "The total transportation cost would remain equal for each ton supply from "
      ++ source ++ " to " ++ customer

/-- The OR-tools linear solver result statuses. -/
inductive SolverStatus where
  | OPTIMAL : SolverStatus
  | FEASIBLE : SolverStatus
  | INFEASIBLE : SolverStatus
  | UNBOUNDED : SolverStatus
  | ABNORMAL : SolverStatus
  | NOT_SOLVED : SolverStatus
deriving DecidableEq, Repr

/-- What the external solve engine hands back: the status, the objective
value, a solution value and reduced cost per variable, and an activity
and dual value per constraint. -/
structure SolveOutput where
  status : SolverStatus
  objective : ℚ
  value : Route → ℚ
  reducedCost : Route → ℚ
  activity : LinCon → ℚ
  dual : LinCon → ℚ

/-- The upper bound `c.ub()` of an emitted constraint: the right-hand
side for a `<=` or `==` constraint, `+inf` (here `none`) for a `>=`
constraint, whose only finite bound is the lower one. -/
def conUb (con : LinCon) : Option ℚ :=
  match con.rel with
  | ConRel.le => some con.rhs
  | ConRel.ge => none
  | ConRel.eq => some con.rhs

/-- The reported slack
`c.ub() - activities[i] if c.ub() - activities[i] != float("inf") else 0.0`:
with a finite activity the difference is infinite exactly when the upper
bound is, so an infinite upper bound reports slack `0.0`. -/
def slackOf (con : LinCon) (act : ℚ) : ℚ :=
  match conUb con with
  | none => 0
  | some b => b - act

/-- The rows of the flow table: every route whose solution value is
strictly positive, in variable-creation order, with its quantity. -/
def flowRows (d : ProblemData) (value : Route → ℚ) :
    List (String × String × ℚ) :=
  ((vQuantityKeys d).filter fun p => decide (0 < value p)).map
    fun p => (p.1, p.2, value p)

/-- The rows of the constraint sensitivity table: one
(name, slack, shadow price) triple per constraint, in emission order. -/
def constraintRows (cons : List LinCon) (activity dual : LinCon → ℚ) :
    List (String × ℚ × ℚ) :=
  cons.map fun c => (c.name, slackOf c (activity c), dual c)

/-- The rows selected for binding-constraint narration:
`df[df['Slack'] == 0]`. -/
def bindingRows (rows : List (String × ℚ × ℚ)) : List (String × ℚ × ℚ) :=
  rows.filter fun r => decide (r.2.1 = 0)

/-- The conclusion lines printed for the binding constraints, in row
order; `printConclusionsConstraints` prints nothing (`none`) for a row
it does not narrate. -/
def constraintConclusions (rows : List (String × ℚ × ℚ))
    (sources : List String) : List String :=
  (bindingRows rows).filterMap fun r => printConclusionsConstraints r.1 r.2.2 sources

/-- The rows of the variable sensitivity table: one
(name, value, reduced cost) triple per variable, in creation order. -/
def variableRows (d : ProblemData) (value rc : Route → ℚ) :
    List (String × ℚ × ℚ) :=
  (vQuantityKeys d).map fun p => (varName p.1 p.2, value p, rc p)

/-- The conclusion lines printed for the zero-valued variables
(`df[df['Value'] == 0]`), in row order. -/
def variableConclusions (rows : List (String × ℚ × ℚ)) : List String :=
  (rows.filter fun r => decide (r.2.1 = 0)).map
    fun r => printConclusionsVariables r.1 r.2.2

/-- The status text printed on the success path: `"Optimal"` for an
optimal solve, `"Feasible, but not optimal"` otherwise. -/
def statusText (st : SolverStatus) : String :=
  if st = SolverStatus.OPTIMAL then "Optimal" else "Feasible, but not optimal"

/-- One printed piece of the program output, in print order. -/
inductive ReportItem where
  | failureMessage : ReportItem
  | statusLine (text : String) : ReportItem
  | objectiveLine (v : ℚ) : ReportItem
  | flowTable (rows : List (String × String × ℚ)) : ReportItem
  | constraintTable (rows : List (String × ℚ × ℚ)) : ReportItem
  | constraintConclusionLine (line : String) : ReportItem
  | variableTable (rows : List (String × ℚ × ℚ)) : ReportItem
  | variableConclusionLine (line : String) : ReportItem
deriving DecidableEq, Repr

/-- The result-printing section of
`solve_problem_using_ortools_linear_solver`: when the status is neither
`FEASIBLE` nor `OPTIMAL` only the failure message is printed; otherwise
the status line, the objective, the flow table, the constraint table and
its binding-constraint conclusions, then the variable table and its
zero-value conclusions. -/
def printResults (d : ProblemData) (cons : List LinCon) (out : SolveOutput) :
    List ReportItem :=
  if out.status ≠ SolverStatus.FEASIBLE ∧ out.status ≠ SolverStatus.OPTIMAL then
    [ReportItem.failureMessage]
  else
    [ReportItem.statusLine (statusText out.status),
     ReportItem.objectiveLine out.objective,
     ReportItem.flowTable (flowRows d out.value),
     ReportItem.constraintTable (constraintRows cons out.activity out.dual)]
    ++ (constraintConclusions (constraintRows cons out.activity out.dual)
        d.sSources).map ReportItem.constraintConclusionLine
    ++ [ReportItem.variableTable (variableRows d out.value out.reducedCost)]
    ++ (variableConclusions (variableRows d out.value out.reducedCost)).map
        ReportItem.variableConclusionLine

/-- The value of a constraint left-hand side under an assignment of
quantities to route variables. -/
def lhsValue (x : Route → ℚ) (vars : List Route) : ℚ :=
  (vars.map x).sum

/-- Whether an assignment satisfies one emitted constraint. -/
def satisfiesCon (x : Route → ℚ) (con : LinCon) : Bool :=
  match con.rel with
  | ConRel.le => decide (lhsValue x con.lhs ≤ con.rhs)
  | ConRel.ge => decide (con.rhs ≤ lhsValue x con.lhs)
  | ConRel.eq => decide (lhsValue x con.lhs = con.rhs)

/-- A data instance whose cost dictionary holds a route from a source
that is not in the source list. -/
def exOutside : ProblemData :=
  { sSources := ["Arn"]
    sCustomers := ["Ams"]
    pSourceProduction := fun _ => 250
    pCustomerDemand := fun _ => 200
    pTransportationCosts := [(("Gou", "Ams"), 1)]
    pFixedTransportation := [(("Gou", "Ams"), 0)] }

/-- A data instance with a long source code: the route exists, but its
code does not fit the fixed three-character identifier slices. -/
def exLongCode : ProblemData :=
  { sSources := ["Arnhem"]
    sCustomers := ["Ams"]
    pSourceProduction := fun _ => 250
    pCustomerDemand := fun _ => 200
    pTransportationCosts := [(("Arnhem", "Ams"), 1)]
    pFixedTransportation := [(("Arnhem", "Ams"), 0)] }

/-- A data instance with a route in the cost dictionary but no entry at
all for it in the fixed-transportation dictionary. -/
def exMissingFixed : ProblemData :=
  { sSources := ["Arn"]
    sCustomers := ["Ams"]
    pSourceProduction := fun _ => 250
    pCustomerDemand := fun _ => 200
    pTransportationCosts := [(("Arn", "Ams"), 1)]
    pFixedTransportation := [] }

/-- A data instance shaped like the repository's base scenario: two
sources, three customers, a sparse route set (Arn does not serve Lon,
Gou does not serve Ber), all fixed quantities present and zero. -/
def exBase : ProblemData :=
  { sSources := ["Arn", "Gou"]
    sCustomers := ["Ams", "Ber", "Lon"]
    pSourceProduction := fun s => if s = "Arn" then 250 else 500
    pCustomerDemand := fun c =>
      if c = "Ams" then 200 else if c = "Ber" then 150 else 100
    pTransportationCosts :=
      [(("Arn", "Ams"), 14 / 10), (("Arn", "Ber"), 27 / 10),
       (("Gou", "Ams"), 8 / 10), (("Gou", "Lon"), 25 / 10)]
    pFixedTransportation :=
      [(("Arn", "Ams"), 0), (("Arn", "Ber"), 0),
       (("Gou", "Ams"), 0), (("Gou", "Lon"), 0)] }

/-- The base scenario with the Arn to Ams flow fixed at one ton, as in
the repository's fixed-route sensitivity scenario. -/
def exFixedRoute : ProblemData :=
  { exBase with
    pFixedTransportation :=
      [(("Arn", "Ams"), 1), (("Arn", "Ber"), 0),
       (("Gou", "Ams"), 0), (("Gou", "Lon"), 0)] }

/-- A flow assignment for `exFixedRoute` that satisfies every emitted
constraint: one ton on the fixed Arn to Ams route, the rest from Gou. -/
def exFixedFlow : Route → ℚ :=
  fun p =>
    if p = ("Arn", "Ams") then 1
    else if p = ("Arn", "Ber") then 150
    else if p = ("Gou", "Ams") then 199
    else if p = ("Gou", "Lon") then 100
    else 0

/-- A solver output for `exBase` on the success path: the optimal values
of the base scenario, used to exercise the interpreter at a concrete
input. -/
def exOutput : SolveOutput :=
  { status := SolverStatus.OPTIMAL
    objective := 795
    value := fun p =>
      if p = ("Arn", "Ber") then 150
      else if p = ("Arn", "Ams") then 50
      else if p = ("Gou", "Ams") then 150
      else if p = ("Gou", "Lon") then 100
      else 0
    reducedCost := fun _ => 0
    activity := fun con => lhsValue
      (fun p =>
        if p = ("Arn", "Ber") then 150
        else if p = ("Arn", "Ams") then 50
        else if p = ("Gou", "Ams") then 150
        else if p = ("Gou", "Lon") then 100
        else 0) con.lhs
    dual := fun _ => 0 }

/-- The same solver output with a failure status. -/
def exFailOutput : SolveOutput :=
  { exOutput with status := SolverStatus.INFEASIBLE }

/-- Membership in the created-variable key list: a pair gets a variable
exactly when its source is in the source list, its customer is in the
customer list, and the pair is an available route. -/
theorem mem_vQuantityKeys (d : ProblemData) (p : Route) :
    p ∈ vQuantityKeys d ↔
      p.1 ∈ d.sSources ∧ p.2 ∈ d.sCustomers ∧ p ∈ sSources_Customers d := by
  obtain ⟨s, c⟩ := p
  simp only [vQuantityKeys, List.mem_flatMap, List.mem_map, List.mem_filter,
    decide_eq_true_eq, Prod.mk.injEq]
  constructor
  · rintro ⟨a, ha, b, ⟨hb, hr⟩, rfl, rfl⟩
    exact ⟨ha, hb, hr⟩
  · rintro ⟨hs, hc, hr⟩
    exact ⟨s, hs, c, ⟨hc, hr⟩, rfl, rfl⟩

/-- Claim C1 (amended): for every input whose cost-map keys all name a
listed source and a listed customer, the set of decision variables
created by the model builder equals exactly the key set of the
transportation-cost map — a variable exists for a pair if and only if
the pair is a key of the cost map, with no extras and no omissions. -/
theorem created_variable_set_eq_cost_keys (d : ProblemData)
    (h : ∀ p ∈ sSources_Customers d, p.1 ∈ d.sSources ∧ p.2 ∈ d.sCustomers) :
    ∀ p : Route, p ∈ vQuantityKeys d ↔ p ∈ sSources_Customers d := by
  intro p
  rw [mem_vQuantityKeys]
  constructor
  · rintro ⟨-, -, hr⟩
    exact hr
  · intro hr
    exact ⟨(h p hr).1, (h p hr).2, hr⟩

/-- Witness for claim C1 at the base scenario. -/
theorem created_variable_set_eq_cost_keys_witness :
    (∀ p ∈ sSources_Customers exBase,
        p.1 ∈ exBase.sSources ∧ p.2 ∈ exBase.sCustomers) ∧
      (∀ p : Route, p ∈ vQuantityKeys exBase ↔ p ∈ sSources_Customers exBase) :=
  ⟨by decide, created_variable_set_eq_cost_keys exBase (by decide)⟩

/-- Counterexample to claim C1 as stated: with the route (Gou, Ams) in
the cost map but Gou absent from the source list, the pair is a cost-map
key yet no variable is created for it. -/
theorem created_variable_set_eq_cost_keys_cex :
    ("Gou", "Ams") ∈ sSources_Customers exOutside ∧
      ("Gou", "Ams") ∉ vQuantityKeys exOutside := by decide

/-- Dropping the length of the first list from an append leaves the
second list. -/
theorem drop_len_append {α : Type} (l₁ l₂ : List α) (n : Nat)
    (h : l₁.length = n) : (l₁ ++ l₂).drop n = l₂ := by
  subst h
  simp

/-- Taking the length of the first list from an append yields the first
list. -/
theorem take_len_append {α : Type} (l₁ l₂ : List α) (n : Nat)
    (h : l₁.length = n) : (l₁ ++ l₂).take n = l₁ := by
  subst h
  simp

/-- The character list behind a built variable name. -/
theorem varName_data (s c : String) :
    (varName s c).data =
      "quantity_in_tons_".data ++ (s.data ++ ('_' :: c.data)) := by
  simp [varName, String.data_append]

/-- Slicing `[-7:-4]` out of a built variable name recovers the source
code when both codes are three characters long. -/
theorem decodeVarSource_varName (s c : String) (hs : s.length = 3)
    (hc : c.length = 3) : decodeVarSource (varName s c) = s := by
  have hsd : s.data.length = 3 := hs
  have hcd : c.data.length = 3 := hc
  unfold decodeVarSource pySliceNeg
  rw [varName_data]
  have hlen :
      ("quantity_in_tons_".data ++ (s.data ++ '_' :: c.data)).length = 24 := by
    simp [hsd, hcd]
  rw [hlen]
  norm_num
  rw [take_len_append s.data _ 3 hsd]

/-- Slicing `[-3:]` out of a built variable name recovers the customer
code when both codes are three characters long. -/
theorem decodeVarCustomer_varName (s c : String) (hs : s.length = 3)
    (hc : c.length = 3) : decodeVarCustomer (varName s c) = c := by
  have hsd : s.data.length = 3 := hs
  have hcd : c.data.length = 3 := hc
  unfold decodeVarCustomer pyLastN
  rw [varName_data]
  have hsh : "quantity_in_tons_".data ++ (s.data ++ '_' :: c.data) =
      ("quantity_in_tons_".data ++ s.data ++ ['_']) ++ c.data := by simp
  rw [hsh]
  have hlen :
      (("quantity_in_tons_".data ++ s.data ++ ['_']) ++ c.data).length = 24 := by
    simp [hsd, hcd]
  rw [hlen]
  norm_num
  have hsp : s.data ++ '_' :: c.data = (s.data ++ ['_']) ++ c.data := by simp
  rw [hsp, drop_len_append _ _ 4 (by simp [hsd])]

/-- The ordinal tag decoded from a capacity-constraint name is 1. -/
theorem constraintNumber_cap (s : String) :
    constraintNumber ("c01_production_" ++ s) = some 1 := by
  unfold constraintNumber
  rw [String.data_append]
  rfl

/-- The ordinal tag decoded from a demand-constraint name is 2. -/
theorem constraintNumber_dem (c : String) :
    constraintNumber ("c02_demand_" ++ c) = some 2 := by
  unfold constraintNumber
  rw [String.data_append]
  rfl

/-- The ordinal tag decoded from a fixed-flow-constraint name is 3. -/
theorem constraintNumber_fixed (s c : String) :
    constraintNumber ("c03_fixed_" ++ s ++ "_" ++ c) = some 3 := by
  unfold constraintNumber
  rw [show ("c03_fixed_" ++ s ++ "_" ++ c).data =
    "c03_fixed_".data ++ (s.data ++ ('_' :: c.data)) by simp [String.data_append]]
  rfl

/-- Slicing `[-3:]` out of a capacity-constraint name recovers the
source code when it is three characters long. -/
theorem pyLastN_cap (s : String) (hs : s.length = 3) :
    pyLastN ("c01_production_" ++ s) 3 = s := by
  have hsd : s.data.length = 3 := hs
  unfold pyLastN
  rw [String.data_append]
  have hlen : ("c01_production_".data ++ s.data).length = 18 := by simp [hsd]
  rw [hlen]
  norm_num

/-- Slicing `[-3:]` out of a demand-constraint name recovers the
customer code when it is three characters long. -/
theorem pyLastN_dem (c : String) (hc : c.length = 3) :
    pyLastN ("c02_demand_" ++ c) 3 = c := by
  have hcd : c.data.length = 3 := hc
  unfold pyLastN
  rw [String.data_append]
  have hlen : ("c02_demand_".data ++ c.data).length = 14 := by simp [hcd]
  rw [hlen]
  norm_num

/-- Claim C2 (amended): for source and customer codes of length exactly
three characters, decoding a variable identifier produced by the model
builder via the fixed-position suffix slices recovers exactly the pair
(s, c), and decoding a constraint identifier recovers its ordinal tag
(1 for capacity, 2 for demand, 3 for fixed flow) and, for capacity and
demand constraints, its location code. -/
theorem identifier_round_trip (d : ProblemData) (s c : String) (v : ℚ)
    (hs : s.length = 3) (hc : c.length = 3) :
    (decodeVarSource (varName s c) = s ∧
      decodeVarCustomer (varName s c) = c) ∧
    (constraintNumber (mkCapCon d s).name = some 1 ∧
      pyLastN (mkCapCon d s).name 3 = s) ∧
    (constraintNumber (mkDemCon d c).name = some 2 ∧
      pyLastN (mkDemCon d c).name 3 = c) ∧
    constraintNumber (mkFixedCon (s, c) v).name = some 3 :=
  ⟨⟨decodeVarSource_varName s c hs hc, decodeVarCustomer_varName s c hs hc⟩,
   ⟨constraintNumber_cap s, pyLastN_cap s hs⟩,
   ⟨constraintNumber_dem c, pyLastN_dem c hc⟩,
   constraintNumber_fixed s c⟩

/-- Witness for claim C2 at the codes Arn and Ams. -/
theorem identifier_round_trip_witness :
    ("Arn" : String).length = 3 ∧ ("Ams" : String).length = 3 ∧
    ((decodeVarSource (varName "Arn" "Ams") = "Arn" ∧
      decodeVarCustomer (varName "Arn" "Ams") = "Ams") ∧
    (constraintNumber (mkCapCon exBase "Arn").name = some 1 ∧
      pyLastN (mkCapCon exBase "Arn").name 3 = "Arn") ∧
    (constraintNumber (mkDemCon exBase "Ams").name = some 2 ∧
      pyLastN (mkDemCon exBase "Ams").name 3 = "Ams") ∧
    constraintNumber (mkFixedCon ("Arn", "Ams") 1).name = some 3) :=
  ⟨by decide, by decide,
   identifier_round_trip exBase "Arn" "Ams" 1 (by decide) (by decide)⟩

/-- Counterexample to claim C2 as stated: the six-character source code
Arnhem has a route, but the fixed-position slice decodes its variable
name to "hem", not "Arnhem". -/
theorem identifier_round_trip_cex :
    ("Arnhem", "Ams") ∈ sSources_Customers exLongCode ∧
      decodeVarSource (varName "Arnhem" "Ams") ≠ "Arnhem" := by decide
/-- Characterization of the fixed-flow constraints on the success path:
a constraint is in the result exactly when some pair in the loop order is
an available route whose fixed-quantity lookup gives a non-zero value. -/
theorem buildFixedFor_ok_mem (d : ProblemData) (ps : List Route) :
    ∀ (l : List LinCon), buildFixedFor d ps = Except.ok l →
    ∀ con : LinCon, (con ∈ l ↔ ∃ p v, p ∈ ps ∧ p ∈ sSources_Customers d ∧
      dictLookup d.pFixedTransportation p = some v ∧ ¬ v = 0 ∧
      con = mkFixedCon p v) := by
  induction ps with
  | nil =>
    intro l h con
    rw [buildFixedFor] at h
    cases h
    simp
  | cons p rest ih =>
    intro l h con
    rw [buildFixedFor] at h
    by_cases hp : p ∈ sSources_Customers d
    · rw [if_pos hp] at h
      cases hl : dictLookup d.pFixedTransportation p with
      | none => rw [hl] at h; cases h
      | some v =>
        rw [hl] at h
        cases hrest : buildFixedFor d rest with
        | error e => rw [hrest] at h; cases h
        | ok l' =>
          rw [hrest] at h
          cases h
          by_cases hv : v = 0
          · rw [if_pos hv]
            rw [ih l' hrest con]
            constructor
            · rintro ⟨q, w, hq, hqr, hqf, hw, rfl⟩
              exact ⟨q, w, List.mem_cons_of_mem p hq, hqr, hqf, hw, rfl⟩
            · rintro ⟨q, w, hq, hqr, hqf, hw, rfl⟩
              rcases List.mem_cons.mp hq with rfl | hq'
              · rw [hl] at hqf
                cases hqf
                exact absurd hv hw
              · exact ⟨q, w, hq', hqr, hqf, hw, rfl⟩
          · rw [if_neg hv]
            constructor
            · intro hcon
              rcases List.mem_cons.mp hcon with rfl | hcon'
              · exact ⟨p, v, List.mem_cons_self p rest, hp, hl, hv, rfl⟩
              · obtain ⟨q, w, hq, hqr, hqf, hw, rfl⟩ := (ih l' hrest con).mp hcon'
                exact ⟨q, w, List.mem_cons_of_mem p hq, hqr, hqf, hw, rfl⟩
            · rintro ⟨q, w, hq, hqr, hqf, hw, rfl⟩
              rcases List.mem_cons.mp hq with rfl | hq'
              · rw [hl] at hqf
                cases hqf
                exact List.mem_cons_self _ _
              · exact List.mem_cons_of_mem _ ((ih l' hrest _).mpr ⟨q, w, hq', hqr, hqf, hw, rfl⟩)
    · rw [if_neg hp] at h
      rw [ih l h con]
      constructor
      · rintro ⟨q, w, hq, hqr, hqf, hw, rfl⟩
        exact ⟨q, w, List.mem_cons_of_mem p hq, hqr, hqf, hw, rfl⟩
      · rintro ⟨q, w, hq, hqr, hqf, hw, rfl⟩
        rcases List.mem_cons.mp hq with rfl | hq'
        · exact absurd hqr hp
        · exact ⟨q, w, hq', hqr, hqf, hw, rfl⟩

/-- The fixed-flow loop either succeeds or raises a `KeyError`. -/
theorem buildFixedFor_ok_or_keyError (d : ProblemData) (ps : List Route) :
    buildFixedFor d ps = Except.error "KeyError" ∨
      ∃ l, buildFixedFor d ps = Except.ok l := by
  induction ps with
  | nil => exact Or.inr ⟨[], rfl⟩
  | cons p rest ih =>
    rw [buildFixedFor]
    by_cases hp : p ∈ sSources_Customers d
    · rw [if_pos hp]
      cases hl : dictLookup d.pFixedTransportation p with
      | none => exact Or.inl rfl
      | some v =>
        rcases ih with herr | ⟨l, hok⟩
        · rw [herr]
          exact Or.inl rfl
        · rw [hok]
          exact Or.inr ⟨_, rfl⟩
    · rw [if_neg hp]
      exact ih

/-- If some looped-over pair is an available route with no entry in the
fixed-transportation dictionary, the loop cannot succeed. -/
theorem buildFixedFor_missing_not_ok (d : ProblemData) (p : Route) :
    ∀ ps : List Route, p ∈ ps → p ∈ sSources_Customers d →
    dictLookup d.pFixedTransportation p = none →
    ∀ l, buildFixedFor d ps ≠ Except.ok l := by
  intro ps
  induction ps with
  | nil => intro h; cases h
  | cons q rest ih =>
    intro hmem hr hnone l h
    rw [buildFixedFor] at h
    by_cases hq : q ∈ sSources_Customers d
    · rw [if_pos hq] at h
      cases hl : dictLookup d.pFixedTransportation q with
      | none => rw [hl] at h; cases h
      | some v =>
        rw [hl] at h
        cases hrest : buildFixedFor d rest with
        | error e => rw [hrest] at h; cases h
        | ok l' =>
          rcases List.mem_cons.mp hmem with rfl | hmem'
          · rw [hnone] at hl
            cases hl
          · exact ih hmem' hr hnone l' hrest
    · rw [if_neg hq] at h
      rcases List.mem_cons.mp hmem with rfl | hmem'
      · exact absurd hr hq
      · exact ih hmem' hr hnone l h

/-- Every (source, customer) combination occurs in the loop order. -/
theorem mem_allPairs (d : ProblemData) (s c : String)
    (hs : s ∈ d.sSources) (hc : c ∈ d.sCustomers) : (s, c) ∈ allPairs d := by
  simp only [allPairs, List.mem_flatMap, List.mem_map]
  exact ⟨s, hs, c, hc, rfl⟩

/-- Claim C3 (amended): for every available route of listed locations,
if the route's fixed-transportation entry is present with value zero, no
fixed-flow constraint is emitted for it on the success path; but if the
entry is absent, the fixed-quantity lookup fails and model construction
stops with a `KeyError` instead of completing. -/
theorem fixedFlow_absent_or_zero (d : ProblemData) (s c : String)
    (hr : (s, c) ∈ sSources_Customers d) (hs : s ∈ d.sSources)
    (hc : c ∈ d.sCustomers) :
    (∀ l, buildFixedConstraints d = Except.ok l →
        dictLookup d.pFixedTransportation (s, c) = some 0 →
        ∀ con ∈ l, con.lhs ≠ [(s, c)]) ∧
    (dictLookup d.pFixedTransportation (s, c) = none →
        buildFixedConstraints d = Except.error "KeyError") := by
  constructor
  · intro l hok hzero con hcon hlhs
    obtain ⟨q, w, hq, hqr, hqf, hw, rfl⟩ :=
      (buildFixedFor_ok_mem d (allPairs d) l hok con).mp hcon
    have hqe : q = (s, c) := by simpa [mkFixedCon] using hlhs
    subst hqe
    rw [hzero] at hqf
    cases hqf
    exact hw rfl
  · intro hnone
    rcases buildFixedFor_ok_or_keyError d (allPairs d) with herr | ⟨l, hok⟩
    · exact herr
    · exact absurd hok (buildFixedFor_missing_not_ok d (s, c) (allPairs d)
        (mem_allPairs d s c hs hc) hr hnone l)

/-- Witness for claim C3 at the base scenario, whose fixed quantities
are all present and zero. -/
theorem fixedFlow_absent_or_zero_witness :
    (("Arn", "Ams") ∈ sSources_Customers exBase ∧ "Arn" ∈ exBase.sSources ∧
      "Ams" ∈ exBase.sCustomers) ∧
    ((∀ l, buildFixedConstraints exBase = Except.ok l →
        dictLookup exBase.pFixedTransportation ("Arn", "Ams") = some 0 →
        ∀ con ∈ l, con.lhs ≠ [("Arn", "Ams")]) ∧
    (dictLookup exBase.pFixedTransportation ("Arn", "Ams") = none →
        buildFixedConstraints exBase = Except.error "KeyError")) :=
  ⟨⟨by decide, by decide, by decide⟩,
   fixedFlow_absent_or_zero exBase "Arn" "Ams" (by decide) (by decide) (by decide)⟩

/-- Counterexample to claim C3 as stated: the route (Arn, Ams) is in
the cost map, its fixed-transportation entry is absent, and model
construction fails with a `KeyError` rather than completing without
error. -/
theorem fixedFlow_absent_or_zero_cex :
    ("Arn", "Ams") ∈ sSources_Customers exMissingFixed ∧
    dictLookup exMissingFixed.pFixedTransportation ("Arn", "Ams") = none ∧
    buildFixedConstraints exMissingFixed = Except.error "KeyError" :=
  ⟨by decide, by decide, by rfl⟩

/-- Claim C4: the reported slack of a constraint equals its upper bound
minus its activity when the bound is finite (`<=` and `==` constraints);
a `>=` constraint such as Demand has an infinite upper bound and reports
slack 0 instead; and the rows selected for binding-constraint narration
are exactly the rows whose reported slack is zero. -/
theorem slack_and_binding_selection :
    (∀ (nm : String) (lhs : List Route) (rhs a : ℚ),
      slackOf ⟨nm, lhs, ConRel.le, rhs⟩ a = rhs - a ∧
      slackOf ⟨nm, lhs, ConRel.eq, rhs⟩ a = rhs - a ∧
      conUb ⟨nm, lhs, ConRel.ge, rhs⟩ = none ∧
      slackOf ⟨nm, lhs, ConRel.ge, rhs⟩ a = 0) ∧
    (∀ (d : ProblemData) (c : String) (a : ℚ),
      conUb (mkDemCon d c) = none ∧ slackOf (mkDemCon d c) a = 0) ∧
    (∀ (rows : List (String × ℚ × ℚ)) (r : String × ℚ × ℚ),
      r ∈ bindingRows rows ↔ r ∈ rows ∧ r.2.1 = 0) := by
  refine ⟨?_, ?_, ?_⟩
  · intro nm lhs rhs a
    exact ⟨rfl, rfl, rfl, rfl⟩
  · intro d c a
    exact ⟨rfl, rfl⟩
  · intro rows r
    simp [bindingRows, List.mem_filter]

/-- Claim C5: when the solver status is neither Optimal nor Feasible the
program prints only the single failure message; when it is Optimal or
Feasible the full interpretation is printed — status line, objective,
flow table, constraint table, variable table — with no failure message,
and the Feasible status text differs from the Optimal one. -/
theorem solver_status_handling (d : ProblemData) (cons : List LinCon)
    (out : SolveOutput) :
    (out.status ≠ SolverStatus.FEASIBLE ∧ out.status ≠ SolverStatus.OPTIMAL →
        printResults d cons out = [ReportItem.failureMessage]) ∧
    (out.status = SolverStatus.OPTIMAL ∨ out.status = SolverStatus.FEASIBLE →
        ReportItem.failureMessage ∉ printResults d cons out ∧
        ReportItem.statusLine (statusText out.status) ∈ printResults d cons out ∧
        ReportItem.flowTable (flowRows d out.value) ∈ printResults d cons out ∧
        ReportItem.constraintTable (constraintRows cons out.activity out.dual) ∈
          printResults d cons out ∧
        ReportItem.variableTable (variableRows d out.value out.reducedCost) ∈
          printResults d cons out) ∧
    statusText SolverStatus.OPTIMAL ≠ statusText SolverStatus.FEASIBLE := by
  refine ⟨?_, ?_, by decide⟩
  · intro h
    unfold printResults
    rw [if_pos h]
  · intro h
    have hcond : ¬ (out.status ≠ SolverStatus.FEASIBLE ∧
        out.status ≠ SolverStatus.OPTIMAL) := by
      rcases h with h | h <;> simp [h]
    unfold printResults
    rw [if_neg hcond]
    refine ⟨?_, ?_, ?_, ?_, ?_⟩
    · simp [List.mem_append, List.mem_map]
    · simp
    · simp
    · simp
    · simp

/-- Witness for claim C5: the failure branch at an infeasible output and
the success branch at an optimal output of the base scenario. -/
theorem solver_status_handling_witness :
    (exFailOutput.status ≠ SolverStatus.FEASIBLE ∧
      exFailOutput.status ≠ SolverStatus.OPTIMAL) ∧
    printResults exBase (capacityCons exBase ++ demandCons exBase) exFailOutput =
      [ReportItem.failureMessage] ∧
    (exOutput.status = SolverStatus.OPTIMAL ∨
      exOutput.status = SolverStatus.FEASIBLE) ∧
    ReportItem.failureMessage ∉
      printResults exBase (capacityCons exBase ++ demandCons exBase) exOutput :=
  ⟨⟨by decide, by decide⟩,
   (solver_status_handling exBase (capacityCons exBase ++ demandCons exBase)
      exFailOutput).1 ⟨by decide, by decide⟩,
   Or.inl rfl,
   ((solver_status_handling exBase (capacityCons exBase ++ demandCons exBase)
      exOutput).2.1 (Or.inl rfl)).1⟩

/-- Rounding an integer gives that integer back. -/
theorem roundHalfEven_intCast (n : ℤ) : roundHalfEven (n : ℚ) = n := by
  unfold roundHalfEven
  norm_num [Int.floor_intCast]

/-- Rounding to two decimals is idempotent. -/
theorem round2_round2 (x : ℚ) : round2 (round2 x) = round2 x := by
  unfold round2
  rw [show (100 : ℚ) * ((roundHalfEven (100 * x) : ℚ) / 100) =
    (roundHalfEven (100 * x) : ℚ) by ring]
  rw [roundHalfEven_intCast]

/-- The variable narration depends on the reduced cost only through its
rounded value: rounding happens before the sign test. -/
theorem printConclusionsVariables_round (name : String) (x : ℚ) :
    printConclusionsVariables name x =
      printConclusionsVariables name (round2 x) := by
  unfold printConclusionsVariables
  rw [round2_round2]

/-- The constraint narration depends on the shadow price only through
its rounded value: rounding happens before the sign test. -/
theorem printConclusionsConstraints_round (name : String) (x : ℚ)
    (sources : List String) :
    printConclusionsConstraints name x sources =
      printConclusionsConstraints name (round2 x) sources := by
  unfold printConclusionsConstraints
  rw [round2_round2]

/-- Claim C6: both narration functions round the dual value to 2 decimal
places before the sign test — each narration agrees with the narration
of the rounded value — and a raw value of -0.004 rounds to 0.00, so both
functions classify it with the remain-equal wording, not as a
decrease. -/
theorem rounding_before_sign_test :
    (∀ (name : String) (x : ℚ),
      printConclusionsVariables name x =
        printConclusionsVariables name (round2 x)) ∧
    (∀ (name : String) (x : ℚ) (sources : List String),
      printConclusionsConstraints name x sources =
        printConclusionsConstraints name (round2 x) sources) ∧
    round2 (-4 / 1000) = 0 ∧
    printConclusionsVariables (varName "Arn" "Ams") (-4 / 1000) =
      "The total transportation cost would remain equal for each ton supply from Arn to Ams" ∧
    printConclusionsConstraints "c01_production_Arn" (-4 / 1000) ["Arn"] =
      some "The total transportation cost would remain equal for each additional ton available in Arn" := by
  have h0 : round2 (-4 / 1000 : ℚ) = 0 := by norm_num [round2, roundHalfEven]
  refine ⟨printConclusionsVariables_round, printConclusionsConstraints_round,
    h0, ?_, ?_⟩
  · simp [printConclusionsVariables, h0]
    rfl
  · simp [printConclusionsConstraints, h0, constraintNumber, availableLine]
    rfl

/-- Claim C7: on the success path the model has exactly one capacity
constraint per source in the source list — a source without routes gets
a vacuous constraint with an empty left-hand side — exactly one demand
constraint per customer, and fixed-flow equality constraints only for
available routes whose fixed quantity is present and non-zero. -/
theorem one_constraint_per_source_and_customer (d : ProblemData)
    (l : List LinCon) (hok : buildFixedConstraints d = Except.ok l) :
    (capacityCons d).length = d.sSources.length ∧
    (∀ s ∈ d.sSources, mkCapCon d s ∈ capacityCons d) ∧
    (∀ s ∈ d.sSources, (∀ c ∈ d.sCustomers, (s, c) ∉ sSources_Customers d) →
      (mkCapCon d s).lhs = []) ∧
    (demandCons d).length = d.sCustomers.length ∧
    (∀ c ∈ d.sCustomers, mkDemCon d c ∈ demandCons d) ∧
    (∀ con ∈ l, ∃ p v, p ∈ sSources_Customers d ∧
      dictLookup d.pFixedTransportation p = some v ∧ ¬ v = 0 ∧
      con = mkFixedCon p v) := by
  refine ⟨by simp [capacityCons], ?_, ?_, by simp [demandCons], ?_, ?_⟩
  · intro s hs
    exact List.mem_map.mpr ⟨s, hs, rfl⟩
  · intro s hs hno
    have hfil : (d.sCustomers.filter fun c =>
        decide ((s, c) ∈ sSources_Customers d)) = [] := by
      rw [List.filter_eq_nil_iff]
      intro c hc
      simpa using hno c hc
    simp [mkCapCon, hfil]
  · intro c hc
    exact List.mem_map.mpr ⟨c, hc, rfl⟩
  · intro con hcon
    obtain ⟨p, v, _, hpr, hpf, hv, rfl⟩ :=
      (buildFixedFor_ok_mem d (allPairs d) l hok con).mp hcon
    exact ⟨p, v, hpr, hpf, hv, rfl⟩

/-- Witness for claim C7 at a data instance whose single listed source
has no routes: its capacity constraint is emitted anyway, vacuously. -/
theorem one_constraint_per_source_and_customer_witness :
    buildFixedConstraints exOutside = Except.ok [] ∧
    ((capacityCons exOutside).length = exOutside.sSources.length ∧
    (∀ s ∈ exOutside.sSources, mkCapCon exOutside s ∈ capacityCons exOutside) ∧
    (∀ s ∈ exOutside.sSources,
      (∀ c ∈ exOutside.sCustomers, (s, c) ∉ sSources_Customers exOutside) →
      (mkCapCon exOutside s).lhs = []) ∧
    (demandCons exOutside).length = exOutside.sCustomers.length ∧
    (∀ c ∈ exOutside.sCustomers, mkDemCon exOutside c ∈ demandCons exOutside) ∧
    (∀ con ∈ ([] : List LinCon), ∃ p v, p ∈ sSources_Customers exOutside ∧
      dictLookup exOutside.pFixedTransportation p = some v ∧ ¬ v = 0 ∧
      con = mkFixedCon p v)) :=
  ⟨rfl, one_constraint_per_source_and_customer exOutside [] rfl⟩

/-- Claim C8: for a binding constraint whose decoded ordinal tag is at
most 2, the narration uses the "available in" wording when the decoded
location is a known source and the "supply at" wording when it is
not. -/
theorem binding_constraint_classification (name : String) (sp : ℚ)
    (sources : List String) (n : Nat)
    (hn : constraintNumber name = some n) (h2 : n ≤ 2) :
    (pyLastN name 3 ∈ sources →
      printConclusionsConstraints name sp sources =
        some (availableLine (pyLastN name 3) (round2 sp))) ∧
    (pyLastN name 3 ∉ sources →
      printConclusionsConstraints name sp sources =
        some (supplyAtLine (pyLastN name 3) (round2 sp))) := by
  constructor <;> intro hmem <;> simp [printConclusionsConstraints, hn, h2, hmem]

/-- Witness for claim C8: the capacity constraint of Arn narrated once
with Arn listed as a source and once without. -/
theorem binding_constraint_classification_witness :
    (constraintNumber "c01_production_Arn" = some 1 ∧ 1 ≤ 2) ∧
    (pyLastN "c01_production_Arn" 3 ∈ ["Arn"] →
      printConclusionsConstraints "c01_production_Arn" (-1/5) ["Arn"] =
        some (availableLine (pyLastN "c01_production_Arn" 3) (round2 (-1/5)))) ∧
    (pyLastN "c01_production_Arn" 3 ∉ ["Gou"] →
      printConclusionsConstraints "c01_production_Arn" (-1/5) ["Gou"] =
        some (supplyAtLine (pyLastN "c01_production_Arn" 3) (round2 (-1/5)))) :=
  ⟨⟨by rfl, by decide⟩,
   (binding_constraint_classification "c01_production_Arn" (-1/5) ["Arn"] 1
      (by rfl) (by decide)).1,
   (binding_constraint_classification "c01_production_Arn" (-1/5) ["Gou"] 1
      (by rfl) (by decide)).2⟩

/-- Claim C9: for every available route of listed locations whose fixed
quantity is present and non-zero, the built model contains the equality
constraint pinning that route, so any assignment satisfying all emitted
constraints carries exactly the fixed quantity on that route. -/
theorem fixed_route_flow_pinned (d : ProblemData) (L : List LinCon)
    (s c : String) (v : ℚ) (x : Route → ℚ)
    (hok : modelConstraints d = Except.ok L)
    (hs : s ∈ d.sSources) (hc : c ∈ d.sCustomers)
    (hr : (s, c) ∈ sSources_Customers d)
    (hf : dictLookup d.pFixedTransportation (s, c) = some v) (hv : ¬ v = 0)
    (hsat : ∀ con ∈ L, satisfiesCon x con = true) :
    x (s, c) = v := by
  cases hfc : buildFixedConstraints d with
  | error e =>
    rw [modelConstraints, hfc] at hok
    cases hok
  | ok fl =>
    rw [modelConstraints, hfc] at hok
    cases hok
    have hmem : mkFixedCon (s, c) v ∈ fl :=
      (buildFixedFor_ok_mem d (allPairs d) fl hfc _).mpr
        ⟨(s, c), v, mem_allPairs d s c hs hc, hr, hf, hv, rfl⟩
    have hsatf := hsat _ (List.mem_append_right _ hmem)
    simpa [satisfiesCon, mkFixedCon, lhsValue] using hsatf

/-- Witness for claim C9 at the fixed-route scenario: a feasible flow
assignment necessarily moves exactly one ton from Arn to Ams. -/
theorem fixed_route_flow_pinned_witness :
    modelConstraints exFixedRoute =
      Except.ok (capacityCons exFixedRoute ++ demandCons exFixedRoute ++
        [mkFixedCon ("Arn", "Ams") 1]) ∧
    "Arn" ∈ exFixedRoute.sSources ∧ "Ams" ∈ exFixedRoute.sCustomers ∧
    ("Arn", "Ams") ∈ sSources_Customers exFixedRoute ∧
    dictLookup exFixedRoute.pFixedTransportation ("Arn", "Ams") = some 1 ∧
    (∀ con ∈ capacityCons exFixedRoute ++ demandCons exFixedRoute ++
        [mkFixedCon ("Arn", "Ams") 1], satisfiesCon exFixedFlow con = true) ∧
    exFixedFlow ("Arn", "Ams") = 1 := by
  have hsat : ∀ con ∈ capacityCons exFixedRoute ++ demandCons exFixedRoute ++
      [mkFixedCon ("Arn", "Ams") 1], satisfiesCon exFixedFlow con = true := by
    intro con hcon
    fin_cases hcon <;>
      simp [satisfiesCon, lhsValue, mkCapCon, mkDemCon, mkFixedCon,
        exFixedRoute, exBase, exFixedFlow, sSources_Customers] <;>
      norm_num
  refine ⟨by rfl, by decide, by decide, by decide, by decide, hsat, ?_⟩
  exact fixed_route_flow_pinned exFixedRoute _ "Arn" "Ams" 1 exFixedFlow
    (by rfl) (by decide) (by decide) (by decide) (by decide) (by decide) hsat

/-- Claim C10: a fixed-flow constraint decodes to ordinal 3, so the
constraint narration prints nothing for it — even when it is selected as
binding, its row contributes no conclusion line. -/
theorem fixed_constraints_not_narrated (s c : String) (v sp : ℚ)
    (sources : List String) :
    constraintNumber (mkFixedCon (s, c) v).name = some 3 ∧
    printConclusionsConstraints (mkFixedCon (s, c) v).name sp sources = none ∧
    constraintConclusions [((mkFixedCon (s, c) v).name, 0, sp)] sources = [] := by
  have hnum : constraintNumber (mkFixedCon (s, c) v).name = some 3 :=
    constraintNumber_fixed s c
  have hnone :
      printConclusionsConstraints (mkFixedCon (s, c) v).name sp sources = none := by
    simp [printConclusionsConstraints, hnum]
  exact ⟨hnum, hnone, by simp [constraintConclusions, bindingRows, hnone]⟩
